import Mathlib

/-!
# Verification of a minimal Metal rendering host (`src/main.rs`)

Shallow embedding of the rendering-pipeline lifecycle and the per-frame
draw state machine of the `tao` + `objc2-metal` triangle example.

Modelling conventions:
* Opaque Objective-C / Metal objects (device, command queue, library,
  shader function, pipeline state, drawable, command buffer, pass
  descriptor, encoder) are identified by `Nat` ids, so that "identical
  instance (reference equality)" becomes equality of ids.
* The GPU backend and windowing system are an external oracle: every
  fallible backend call's outcome is a field of an environment record
  (`BootEnv` for one-time setup, `FrameEnv` for one draw invocation).
* `CGFloat` window geometry is idealised as `ℚ` (exact values; resize
  handling only copies rectangles, so no rounding is involved);
  `f32` vertex attributes are idealised as exact numbers of the form
  `a + b·√3` with `a b : ℚ` (type `SqrtExt`), which represents every
  scalar the triangle geometry uses (including `f32::sqrt(3.0)`)
  exactly and computably; `SqrtExt.toReal` interprets them in `ℝ`.
* Rust panics (`unwrap` / `expect` on `OnceCell` reads and sets, and on
  backend errors) are modelled by an `Option`-valued result: `none`
  means the call panicked, aborting the process.
* Effectful calls into the backend are recorded in an explicit call
  trace (`List Call`), so that ordering and occurrence claims become
  statements about that list.
-/

/-- A rectangle (`NSRect`): origin and size, exact rational coordinates. -/
structure Rect where
  x : ℚ
  y : ℚ
  w : ℚ
  h : ℚ
deriving DecidableEq, Repr

/-- A size payload (`tao::dpi::PhysicalSize` carried by `WindowEvent::Resized`). -/
structure Size where
  width : ℚ
  height : ℚ
deriving DecidableEq, Repr

/-- Exact scalar `a + b·√3` (`a b : ℚ`): a computable field of reals
closed under the arithmetic the vertex geometry needs. The source's
`f32` values are idealised into this type (`f32::sqrt(3.0)` becomes
`⟨0, 1⟩`, plain literals become `⟨q, 0⟩`). -/
structure SqrtExt where
  a : ℚ
  b : ℚ
deriving DecidableEq, Repr

/-- Addition on `a + b·√3`. -/
def SqrtExt.add (u v : SqrtExt) : SqrtExt := ⟨u.a + v.a, u.b + v.b⟩

/-- Subtraction on `a + b·√3`. -/
def SqrtExt.sub (u v : SqrtExt) : SqrtExt := ⟨u.a - v.a, u.b - v.b⟩

/-- Multiplication: `(a + b√3)(c + d√3) = (ac + 3bd) + (ad + bc)√3`. -/
def SqrtExt.mul (u v : SqrtExt) : SqrtExt :=
  ⟨u.a * v.a + 3 * u.b * v.b, u.a * v.b + u.b * v.a⟩

/-- Interpretation of `a + b·√3` as a real number. -/
noncomputable def SqrtExt.toReal (u : SqrtExt) : ℝ := u.a + u.b * Real.sqrt 3

/-- `MTLPackedFloat3` (the source uses `f32` components). -/
structure Float3 where
  x : SqrtExt
  y : SqrtExt
  z : SqrtExt
deriving DecidableEq, Repr

/-- `struct VertexInput { position: MTLPackedFloat3, color: MTLPackedFloat3 }`. -/
structure VertexInput where
  position : Float3
  color : Float3
deriving DecidableEq, Repr

/-- The fixed triangle geometry from `drawInMTKView` (src/main.rs lines
103-140): local `vertex_input_data`, rebuilt identically on every frame.
`-f32::sqrt(3.0)/4.0` is `⟨0, -(1/4)⟩` (that is `-√3/4`), `-0.25` is
`⟨-(1/4), 0⟩`, `0.5` is `⟨1/2, 0⟩`, colors are `0` and `1`. -/
def vertex_input_data : List VertexInput :=
  [ { position := { x := ⟨0, -(1/4)⟩, y := ⟨-(1/4), 0⟩, z := ⟨0, 0⟩ },
      color := { x := ⟨1, 0⟩, y := ⟨0, 0⟩, z := ⟨0, 0⟩ } },
    { position := { x := ⟨0, 1/4⟩, y := ⟨-(1/4), 0⟩, z := ⟨0, 0⟩ },
      color := { x := ⟨0, 0⟩, y := ⟨1, 0⟩, z := ⟨0, 0⟩ } },
    { position := { x := ⟨0, 0⟩, y := ⟨1/2, 0⟩, z := ⟨0, 0⟩ },
      color := { x := ⟨0, 0⟩, y := ⟨0, 0⟩, z := ⟨1, 0⟩ } } ]

/-- `MTLPrimitiveType`. -/
inductive PrimitiveType where
  | point
  | line
  | lineStrip
  | triangle
  | triangleStrip
deriving DecidableEq, Repr

/-- One observable call into the graphics backend / windowing system.
Resource-creation calls record their (environment-determined) result so
that "created exactly once" is a statement about the trace. Encoder
calls record their arguments; `setVertexBytes` abstracts the raw
pointer + byte length of the source to the logical vertex array it
points at, keeping the binding index. -/
inductive Call where
  | createDevice (result : Option Nat)
  | newCommandQueue (result : Option Nat)
  | newLibraryWithSource (result : Option Nat)
  | functionNamed (name : String) (result : Option Nat)
  | newRenderPipelineState (result : Option Nat)
  | setDelegate
  | addSubview
  | setFrame (r : Rect)
  | center
  | setTitle (s : String)
  | setVertexBytes (data : List VertexInput) (index : Nat)
  | setRenderPipelineState (ps : Nat)
  | drawPrimitives (t : PrimitiveType) (start count : Nat)
  | endEncoding
  | presentDrawable (d : Nat)
  | commit
deriving DecidableEq, Repr

/-- The host `NSWindow`, as read by this program: its own frame and its
content view's frame (`contentView()` is an `Option` in the bindings;
`none` models a window without a content view, where the program's
`unwrap` panics). -/
structure NSWindowModel where
  frame : Rect
  contentView : Option Rect
deriving DecidableEq, Repr

/-- The `MTKView` state this program creates and mutates: its frame, the
device it was initialised with, its color pixel format, and whether the
delegate was registered / the view attached to the window content view. -/
structure MTKViewModel where
  frame : Rect
  device : Nat
  colorPixelFormat : Nat
  delegateSet : Bool
  attachedToContentView : Bool
deriving DecidableEq, Repr

/-- `struct AppState`: the four `OnceCell` ivars of `MtkViewDelegate`.
`none` models an empty cell; reading an empty cell (`get().unwrap()`)
panics, setting a full cell (`set(..).expect(..)`) panics. -/
structure AppState where
  command_queue : Option Nat
  pipeline_state : Option Nat
  window : Option NSWindowModel
  mtk_view : Option MTKViewModel
deriving DecidableEq, Repr

/-- The state built by `MtkViewDelegate::new`: only the window cell is
filled. -/
def initialAppState (w : NSWindowModel) : AppState :=
  { command_queue := none, pipeline_state := none,
    window := some w, mtk_view := none }

/-- `MTLRenderPipelineDescriptor` as configured by `init`:
`colorAttachments[0].pixelFormat`, vertex and fragment functions.
The functions are `Option`s because `newFunctionWithName` may return
nil and the source passes its result through `as_deref()` unchecked. -/
structure RenderPipelineDescriptor where
  colorPixelFormat : Nat
  vertexFunction : Option Nat
  fragmentFunction : Option Nat
deriving DecidableEq, Repr

/-- Backend / windowing oracle for the one-time `MtkViewDelegate::init`:
the outcome of each fallible external call. `functionNamed` answers
`newFunctionWithName` per entry-point name; `newRenderPipelineState`
answers pipeline-state creation for the descriptor it is given. -/
structure BootEnv where
  createDefaultDevice : Option Nat
  newCommandQueue : Option Nat
  colorPixelFormat : Nat
  newLibraryWithSource : Option Nat
  functionNamed : String → Option Nat
  newRenderPipelineState : RenderPipelineDescriptor → Option Nat

/-- Frame oracle for one `drawInMTKView` invocation: the outcome of the
four per-frame acquisition calls (steps 1-4). -/
structure FrameEnv where
  currentDrawable : Option Nat
  commandBuffer : Option Nat
  currentRenderPassDescriptor : Option Nat
  renderCommandEncoder : Option Nat
deriving DecidableEq, Repr

/-- All four acquisition steps succeed. -/
def acquisitionOk (env : FrameEnv) : Bool :=
  env.currentDrawable.isSome && env.commandBuffer.isSome &&
    env.currentRenderPassDescriptor.isSome && env.renderCommandEncoder.isSome

/-- `MtkViewDelegate::drawInMTKView` (src/main.rs lines 69-161).
Returns `none` on panic (a `OnceCell` read of an empty cell), and
`some trace` when the handler returns normally, where `trace` lists the
encoder / command-buffer calls issued this frame. Each failed
acquisition is an early `return`, producing `some []`. The
scene-properties block of the source is commented out there and hence
absent here. -/
def drawInMTKView (st : AppState) (env : FrameEnv) : Option (List Call) :=
  match st.command_queue with
  | none => none
  | some _command_queue =>
  match st.pipeline_state with
  | none => none
  | some pipeline_state =>
  match env.currentDrawable with
  | none => some []
  | some current_drawable =>
  match env.commandBuffer with
  | none => some []
  | some _command_buffer =>
  match env.currentRenderPassDescriptor with
  | none => some []
  | some _pass_descriptor =>
  match env.renderCommandEncoder with
  | none => some []
  | some _encoder =>
  some [ Call.setVertexBytes vertex_input_data 1,
         Call.setRenderPipelineState pipeline_state,
         Call.drawPrimitives PrimitiveType.triangle 0 3,
         Call.endEncoding,
         Call.presentDrawable current_drawable,
         Call.commit ]

/-- The `WindowEvent::Resized` arm of the event loop (src/main.rs lines
289-295). The handler receives the event's size payload but never reads
it; it reads the window's content view frame *at handling time*
(`contentViewFrameNow`, an input because the window system mutates it)
and sets the `MTKView`'s frame to exactly that rectangle. `none` result
models a panic of one of the three `unwrap`s. -/
def handleResize (_size : Size) (contentViewFrameNow : Option Rect)
    (st : AppState) : Option (AppState × List Call) :=
  match st.mtk_view with
  | none => none
  | some mtk_view =>
  match st.window with
  | none => none
  | some _ns_window =>
  match contentViewFrameNow with
  | none => none
  | some r =>
  some ({ st with mtk_view := some { mtk_view with frame := r } },
        [Call.setFrame r])

/-- `MtkViewDelegate::init` (src/main.rs lines 172-244), the one-time
pipeline bootstrap. Returns the calls issued and, on normal completion,
the updated `AppState`; `none` models a panic (a failed `expect` /
`unwrap`, including the write-once cells rejecting a second `set`).
Mirrors the source order: read window cell, create device, create
command queue, create `MTKView` with the window's frame, build the
pipeline descriptor with the view's pixel format, compile the shader
library, look up `vertex_main` and `fragment_main` (the `Option`
results are assigned to the descriptor unchecked), create the pipeline
state, register the delegate, attach the view to the content view and
set its frame to the content view's frame, center and title the
window, then fill the three write-once cells. -/
def init (env : BootEnv) (st : AppState) : List Call × Option AppState :=
  match st.window with
  | none => ([], none)
  | some window =>
  match env.createDefaultDevice with
  | none => ([Call.createDevice none], none)
  | some device =>
  let l1 := [Call.createDevice (some device)]
  match env.newCommandQueue with
  | none => (l1 ++ [Call.newCommandQueue none], none)
  | some command_queue =>
  let l2 := l1 ++ [Call.newCommandQueue (some command_queue)]
  let mtk_view : MTKViewModel :=
    { frame := window.frame, device := device,
      colorPixelFormat := env.colorPixelFormat,
      delegateSet := false, attachedToContentView := false }
  let pipeline_descriptor : RenderPipelineDescriptor :=
    { colorPixelFormat := mtk_view.colorPixelFormat,
      vertexFunction := none, fragmentFunction := none }
  match env.newLibraryWithSource with
  | none => (l2 ++ [Call.newLibraryWithSource none], none)
  | some library =>
  let l3 := l2 ++ [Call.newLibraryWithSource (some library)]
  let vertex_function := env.functionNamed "vertex_main"
  let pd1 := { pipeline_descriptor with vertexFunction := vertex_function }
  let fragment_function := env.functionNamed "fragment_main"
  let pd2 := { pd1 with fragmentFunction := fragment_function }
  let l4 := l3 ++ [Call.functionNamed "vertex_main" vertex_function,
                   Call.functionNamed "fragment_main" fragment_function]
  match env.newRenderPipelineState pd2 with
  | none => (l4 ++ [Call.newRenderPipelineState none], none)
  | some pipeline_state =>
  let l5 := l4 ++ [Call.newRenderPipelineState (some pipeline_state)]
  let mtk_view := { mtk_view with delegateSet := true }
  let l6 := l5 ++ [Call.setDelegate]
  match window.contentView with
  | none => (l6, none)
  | some view_frame =>
  let mtk_view := { mtk_view with attachedToContentView := true, frame := view_frame }
  let l7 := l6 ++ [Call.addSubview, Call.setFrame view_frame,
                   Call.center, Call.setTitle "Metal Example"]
  match st.command_queue with
  | some _ => (l7, none)
  | none =>
  match st.pipeline_state with
  | some _ => (l7, none)
  | none =>
  match st.mtk_view with
  | some _ => (l7, none)
  | none =>
  (l7, some { command_queue := some command_queue,
              pipeline_state := some pipeline_state,
              window := some window,
              mtk_view := some mtk_view })

/-- One event dispatched by the `tao` event loop after bootstrap:
a `WindowEvent::Resized` (with its size payload and the content view
frame the window system reports at handling time) or a per-frame draw
tick delivered to `drawInMTKView` with that frame's acquisition
outcomes. -/
inductive AppEvent where
  | resized (size : Size) (contentViewFrameNow : Option Rect)
  | draw (env : FrameEnv)

/-- Dispatch of one event (the `match` in `main`'s event-loop closure):
`Resized` runs the resize handler, a draw tick runs `drawInMTKView`
(which leaves the `AppState` unchanged). `none` propagates a panic. -/
def step (st : AppState) (e : AppEvent) : Option (AppState × List Call) :=
  match e with
  | AppEvent.resized size cv => handleResize size cv st
  | AppEvent.draw env =>
    match drawInMTKView st env with
    | none => none
    | some log => some (st, log)

/-- The event loop after bootstrap: fold `step` over the event list,
collecting the per-event call logs; `none` final state means a panic
stopped the loop (events after the panic are not processed). -/
def run (st : AppState) : List AppEvent → List (List Call) × Option AppState
  | [] => ([], some st)
  | e :: es =>
    match step st e with
    | none => ([], none)
    | some (st', log) =>
      let r := run st' es
      (log :: r.1, r.2)

/-- A whole process run (`main`): `MtkViewDelegate::new` (fills only the
window cell), `init`, then the event loop. Returns every backend call
the process issued and whether it aborted by panic. -/
def processRun (env : BootEnv) (w : NSWindowModel) (events : List AppEvent) :
    List Call × Bool :=
  match init env (initialAppState w) with
  | (log, none) => (log, true)
  | (log, some st) =>
    let r := run st events
    (log ++ r.1.flatten, r.2.isNone)

/-- A frame environment in which every acquisition step succeeds. -/
def envAll : FrameEnv :=
  { currentDrawable := some 10, commandBuffer := some 11,
    currentRenderPassDescriptor := some 12, renderCommandEncoder := some 13 }

/-- A frame environment in which the drawable is unavailable (step 1 fails). -/
def envNoDrawable : FrameEnv :=
  { currentDrawable := none, commandBuffer := some 11,
    currentRenderPassDescriptor := some 12, renderCommandEncoder := some 13 }

/-- A concrete host window: frame 800×600 at the origin, content view
frame 800×578. -/
def w0 : NSWindowModel :=
  { frame := ⟨0, 0, 800, 600⟩, contentView := some ⟨0, 0, 800, 578⟩ }

/-- A fully functional bootstrap oracle: every creation succeeds, both
shader entry points resolve, and pipeline creation succeeds exactly
when the descriptor carries both a vertex and a fragment function. -/
def env0 : BootEnv :=
  { createDefaultDevice := some 1, newCommandQueue := some 2,
    colorPixelFormat := 80, newLibraryWithSource := some 3,
    functionNamed := fun n =>
      if n = "vertex_main" then some 4
      else if n = "fragment_main" then some 5 else none,
    newRenderPipelineState := fun d =>
      if d.vertexFunction.isSome && d.fragmentFunction.isSome then some 6
      else none }

/-- A bootstrap oracle whose shader library lacks `fragment_main`
(the lookup returns nil) but whose pipeline-state creation nevertheless
succeeds — e.g. a backend that accepts a descriptor without a fragment
function. -/
def envBadFrag : BootEnv :=
  { createDefaultDevice := some 1, newCommandQueue := some 2,
    colorPixelFormat := 80, newLibraryWithSource := some 3,
    functionNamed := fun n => if n = "vertex_main" then some 4 else none,
    newRenderPipelineState := fun _ => some 6 }

/-- A bootstrap oracle missing `fragment_main` whose pipeline creation
rejects a descriptor lacking a vertex or fragment function (as Metal
does when a color attachment is configured). -/
def envNoFrag : BootEnv :=
  { createDefaultDevice := some 1, newCommandQueue := some 2,
    colorPixelFormat := 80, newLibraryWithSource := some 3,
    functionNamed := fun n => if n = "vertex_main" then some 4 else none,
    newRenderPipelineState := fun d =>
      if d.vertexFunction.isSome && d.fragmentFunction.isSome then some 6
      else none }

/-- The `AppState` produced by a successful `init` under `env0` / `w0`. -/
def readyState : AppState :=
  { command_queue := some 2, pipeline_state := some 6, window := some w0,
    mtk_view := some { frame := ⟨0, 0, 800, 578⟩, device := 1,
                       colorPixelFormat := 80, delegateSet := true,
                       attachedToContentView := true } }

example : acquisitionOk envAll = true := by decide

example : drawInMTKView (initialAppState w0) envAll = none := rfl

example : (init env0 (initialAppState w0)).2 = some readyState := by decide

/-- The call sequence `drawInMTKView` issues on a fully successful frame,
given the bound pipeline state `ps` and the acquired drawable `d`. -/
def frameCalls (ps d : Nat) : List Call :=
  [ Call.setVertexBytes vertex_input_data 1,
    Call.setRenderPipelineState ps,
    Call.drawPrimitives PrimitiveType.triangle 0 3,
    Call.endEncoding,
    Call.presentDrawable d,
    Call.commit ]

/-- Inversion of `drawInMTKView`: a normal return means both cells were
readable, and the trace is either empty (some acquisition failed) or
the full encode-present-commit sequence (all acquisitions succeeded). -/
theorem drawInMTKView_some_spec (st : AppState) (env : FrameEnv) (log : List Call)
    (h : drawInMTKView st env = some log) :
    ∃ cq ps, st.command_queue = some cq ∧ st.pipeline_state = some ps ∧
      ((acquisitionOk env = false ∧ log = []) ∨
        (acquisitionOk env = true ∧ ∃ d, env.currentDrawable = some d ∧
          log = frameCalls ps d)) := by
  rcases st with ⟨scq, sps, swin, smtk⟩
  rcases env with ⟨cd, cb, pd, enc⟩
  rcases scq with _ | cq
  · exact absurd h (by simp [drawInMTKView])
  rcases sps with _ | ps
  · exact absurd h (by simp [drawInMTKView])
  refine ⟨cq, ps, rfl, rfl, ?_⟩
  rcases cd with _ | d <;> rcases cb with _ | b <;>
    rcases pd with _ | p <;> rcases enc with _ | e <;>
    simp_all [drawInMTKView, acquisitionOk, frameCalls]

/-- C1: for every invocation of `drawInMTKView` (with readable cells,
i.e. after bootstrap), a `commit` call occurs iff all four acquisition
steps succeeded, in which case the trace is exactly the encode sequence
through `commit` in order; if any acquisition step fails the handler
returns with an empty trace — no encoding, present, or commit. -/
theorem frame_commit_iff (st : AppState) (env : FrameEnv) (cq ps : Nat)
    (hcq : st.command_queue = some cq) (hps : st.pipeline_state = some ps) :
    ∃ log, drawInMTKView st env = some log ∧
      (Call.commit ∈ log ↔ acquisitionOk env = true) ∧
      (acquisitionOk env = true →
        ∃ d, env.currentDrawable = some d ∧ log = frameCalls ps d) ∧
      (acquisitionOk env = false → log = []) := by
  rcases env with ⟨cd, cb, pd, enc⟩
  rcases cd with _ | d <;> rcases cb with _ | b <;>
    rcases pd with _ | p <;> rcases enc with _ | e <;>
    simp [drawInMTKView, hcq, hps, acquisitionOk, frameCalls]

/-- C1 witness: a frame with all acquisitions available, on the state
bootstrap produces from `env0` / `w0`. -/
theorem frame_commit_iff_witness :
    readyState.command_queue = some 2 ∧ readyState.pipeline_state = some 6 ∧
    (∃ log, drawInMTKView readyState envAll = some log ∧
      (Call.commit ∈ log ↔ acquisitionOk envAll = true) ∧
      (acquisitionOk envAll = true →
        ∃ d, envAll.currentDrawable = some d ∧ log = frameCalls 6 d) ∧
      (acquisitionOk envAll = false → log = [])) :=
  ⟨rfl, rfl, frame_commit_iff readyState envAll 2 6 rfl rfl⟩

/-- C3: on every frame that reaches the encode step (normal return with
a non-empty trace), the vertex array written to the encoder is the
constant `vertex_input_data` at slot 1: exactly 3 vertices with colors
`(1,0,0)`, `(0,1,0)`, `(0,0,1)` in that order. Since every invocation
writes the same constant (and the handler takes no frame-count or
time input; the time-based scene-properties block is commented out in
the source), the array is identical on every invocation. -/
theorem frame_vertex_data_constant (st : AppState) (env : FrameEnv) (log : List Call)
    (h : drawInMTKView st env = some log) (hne : log ≠ []) :
    Call.setVertexBytes vertex_input_data 1 ∈ log ∧
    (∀ data idx, Call.setVertexBytes data idx ∈ log →
      data = vertex_input_data ∧ idx = 1) ∧
    vertex_input_data.length = 3 ∧
    vertex_input_data.map (fun v => v.color) =
      [ { x := ⟨1, 0⟩, y := ⟨0, 0⟩, z := ⟨0, 0⟩ },
        { x := ⟨0, 0⟩, y := ⟨1, 0⟩, z := ⟨0, 0⟩ },
        { x := ⟨0, 0⟩, y := ⟨0, 0⟩, z := ⟨1, 0⟩ } ] := by
  obtain ⟨cq, ps, -, -, hcase⟩ := drawInMTKView_some_spec st env log h
  rcases hcase with ⟨-, rfl⟩ | ⟨-, d, -, rfl⟩
  · exact absurd rfl hne
  refine ⟨by simp [frameCalls], ?_, by decide, by decide⟩
  intro data idx hmem
  simpa [frameCalls] using hmem

/-- C3 witness: the full-acquisition frame on the bootstrapped state. -/
theorem frame_vertex_data_constant_witness :
    drawInMTKView readyState envAll = some (frameCalls 6 10) ∧
    frameCalls 6 10 ≠ [] ∧
    (Call.setVertexBytes vertex_input_data 1 ∈ frameCalls 6 10 ∧
      (∀ data idx, Call.setVertexBytes data idx ∈ frameCalls 6 10 →
        data = vertex_input_data ∧ idx = 1) ∧
      vertex_input_data.length = 3 ∧
      vertex_input_data.map (fun v => v.color) =
        [ { x := ⟨1, 0⟩, y := ⟨0, 0⟩, z := ⟨0, 0⟩ },
          { x := ⟨0, 0⟩, y := ⟨1, 0⟩, z := ⟨0, 0⟩ },
          { x := ⟨0, 0⟩, y := ⟨0, 0⟩, z := ⟨1, 0⟩ } ]) :=
  ⟨rfl, by decide,
    frame_vertex_data_constant readyState envAll (frameCalls 6 10) rfl (by decide)⟩

/-- C4: in every frame in which all four acquisition steps succeed, the
handler issues exactly, in order: vertex bytes to slot 1, pipeline
bind, a triangle draw with start 0 and count 3, end-encoding, present
of the acquired drawable, and commit. -/
theorem frame_encode_order (st : AppState) (env : FrameEnv) (cq ps d : Nat)
    (hcq : st.command_queue = some cq) (hps : st.pipeline_state = some ps)
    (hd : env.currentDrawable = some d)
    (hcb : env.commandBuffer.isSome = true)
    (hpd : env.currentRenderPassDescriptor.isSome = true)
    (henc : env.renderCommandEncoder.isSome = true) :
    drawInMTKView st env =
      some [ Call.setVertexBytes vertex_input_data 1,
             Call.setRenderPipelineState ps,
             Call.drawPrimitives PrimitiveType.triangle 0 3,
             Call.endEncoding,
             Call.presentDrawable d,
             Call.commit ] := by
  rcases env with ⟨cd, cb, pd, enc⟩
  cases cb <;> cases pd <;> cases enc <;>
    simp_all [drawInMTKView, hcq, hps]

/-- C4 witness: the full-acquisition frame on the bootstrapped state. -/
theorem frame_encode_order_witness :
    readyState.command_queue = some 2 ∧ readyState.pipeline_state = some 6 ∧
    envAll.currentDrawable = some 10 ∧ envAll.commandBuffer.isSome = true ∧
    envAll.currentRenderPassDescriptor.isSome = true ∧
    envAll.renderCommandEncoder.isSome = true ∧
    drawInMTKView readyState envAll =
      some [ Call.setVertexBytes vertex_input_data 1,
             Call.setRenderPipelineState 6,
             Call.drawPrimitives PrimitiveType.triangle 0 3,
             Call.endEncoding,
             Call.presentDrawable 10,
             Call.commit ] :=
  ⟨rfl, rfl, rfl, rfl, rfl, rfl,
    frame_encode_order readyState envAll 2 6 10 rfl rfl rfl rfl rfl rfl⟩

/-- `SqrtExt.add` interprets to real addition. -/
theorem SqrtExt.toReal_add (u v : SqrtExt) :
    (SqrtExt.add u v).toReal = u.toReal + v.toReal := by
  simp only [SqrtExt.add, SqrtExt.toReal]
  push_cast
  ring

/-- `SqrtExt.sub` interprets to real subtraction. -/
theorem SqrtExt.toReal_sub (u v : SqrtExt) :
    (SqrtExt.sub u v).toReal = u.toReal - v.toReal := by
  simp only [SqrtExt.sub, SqrtExt.toReal]
  push_cast
  ring

/-- `SqrtExt.mul` interprets to real multiplication (uses `√3 · √3 = 3`). -/
theorem SqrtExt.toReal_mul (u v : SqrtExt) :
    (SqrtExt.mul u v).toReal = u.toReal * v.toReal := by
  have h3 : Real.sqrt 3 * Real.sqrt 3 = 3 := Real.mul_self_sqrt (by norm_num)
  simp only [SqrtExt.mul, SqrtExt.toReal]
  push_cast
  linear_combination (-((u.b : ℝ) * (v.b : ℝ))) * h3

/-- Squared Euclidean distance between two vertex positions, computed in
the exact scalar type. -/
def sqDist (p q : Float3) : SqrtExt :=
  SqrtExt.add
    (SqrtExt.add
      (SqrtExt.mul (SqrtExt.sub p.x q.x) (SqrtExt.sub p.x q.x))
      (SqrtExt.mul (SqrtExt.sub p.y q.y) (SqrtExt.sub p.y q.y)))
    (SqrtExt.mul (SqrtExt.sub p.z q.z) (SqrtExt.sub p.z q.z))

/-- Euclidean distance between two vertex positions, as a real number. -/
noncomputable def dist3 (p q : Float3) : ℝ := Real.sqrt (sqDist p q).toReal

/-- `sqDist` interprets to the real squared Euclidean distance, so
`dist3` is the genuine Euclidean distance. -/
theorem sqDist_toReal (p q : Float3) :
    (sqDist p q).toReal =
      (p.x.toReal - q.x.toReal) ^ 2 + (p.y.toReal - q.y.toReal) ^ 2 +
        (p.z.toReal - q.z.toReal) ^ 2 := by
  simp only [sqDist, SqrtExt.toReal_add, SqrtExt.toReal_mul, SqrtExt.toReal_sub]
  ring

/-- The all-zero vertex position. -/
def zeroF3 : Float3 := ⟨⟨0, 0⟩, ⟨0, 0⟩, ⟨0, 0⟩⟩

/-- The `i`-th vertex position of the fixed triangle geometry. -/
def vpos (i : Nat) : Float3 :=
  (vertex_input_data.getD i { position := zeroF3, color := zeroF3 }).position

/-- C9: the three vertex positions encoded each frame are, in order,
`(-√3/4, -1/4, 0)`, `(√3/4, -1/4, 0)`, `(0, 1/2, 0)` (interpreting the
exact scalars in `ℝ`); there are exactly 3 of them, their pairwise
Euclidean distances are all equal (an equilateral triangle), and their
centroid is the origin (componentwise sums vanish). -/
theorem triangle_equilateral_centered :
    vertex_input_data.length = 3 ∧
    vertex_input_data.map
        (fun v => (v.position.x.toReal, v.position.y.toReal, v.position.z.toReal)) =
      [(-(Real.sqrt 3) / 4, (-(1/4) : ℝ), (0 : ℝ)),
       (Real.sqrt 3 / 4, (-(1/4) : ℝ), (0 : ℝ)),
       ((0 : ℝ), (1/2 : ℝ), (0 : ℝ))] ∧
    dist3 (vpos 0) (vpos 1) = dist3 (vpos 1) (vpos 2) ∧
    dist3 (vpos 0) (vpos 2) = dist3 (vpos 1) (vpos 2) ∧
    (vpos 0).x.toReal + (vpos 1).x.toReal + (vpos 2).x.toReal = 0 ∧
    (vpos 0).y.toReal + (vpos 1).y.toReal + (vpos 2).y.toReal = 0 ∧
    (vpos 0).z.toReal + (vpos 1).z.toReal + (vpos 2).z.toReal = 0 := by
  have hd01 : sqDist (vpos 0) (vpos 1) = sqDist (vpos 1) (vpos 2) := by
    simp [sqDist, vpos, vertex_input_data, SqrtExt.sub, SqrtExt.mul, SqrtExt.add]
    norm_num
  have hd02 : sqDist (vpos 0) (vpos 2) = sqDist (vpos 1) (vpos 2) := by
    simp [sqDist, vpos, vertex_input_data, SqrtExt.sub, SqrtExt.mul, SqrtExt.add]
  refine ⟨rfl, ?_, ?_, ?_, ?_, ?_, ?_⟩
  · simp [vertex_input_data, SqrtExt.toReal]
    exact ⟨by ring, by ring⟩
  · unfold dist3
    rw [hd01]
  · unfold dist3
    rw [hd02]
  · simp [vpos, vertex_input_data, SqrtExt.toReal]
  · simp [vpos, vertex_input_data, SqrtExt.toReal]
    norm_num
  · simp [vpos, vertex_input_data, SqrtExt.toReal]

/-- C5: for every resize event (with the `MTKView` and window cells set,
as they are after bootstrap, and an existing content view), the handler
returns normally and afterwards the rendering surface's frame equals
the host window content view's frame exactly — the state is unchanged
except for that frame, and the only call issued is `setFrame` with that
exact rectangle. -/
theorem resize_exact (size : Size) (r : Rect) (st : AppState)
    (v : MTKViewModel) (w : NSWindowModel)
    (hv : st.mtk_view = some v) (hw : st.window = some w) :
    ∃ st', handleResize size (some r) st = some (st', [Call.setFrame r]) ∧
      st' = { st with mtk_view := some { v with frame := r } } ∧
      ∃ v', st'.mtk_view = some v' ∧ v'.frame = r := by
  refine ⟨{ st with mtk_view := some { v with frame := r } }, ?_, rfl, ?_⟩
  · simp [handleResize, hv, hw]
  · exact ⟨{ v with frame := r }, rfl, rfl⟩

/-- C5 witness: resizing the bootstrapped state to a content frame of
1024×746. -/
theorem resize_exact_witness :
    readyState.mtk_view =
      some { frame := ⟨0, 0, 800, 578⟩, device := 1, colorPixelFormat := 80,
             delegateSet := true, attachedToContentView := true } ∧
    readyState.window = some w0 ∧
    (∃ st', handleResize ⟨1024, 768⟩ (some ⟨0, 0, 1024, 746⟩) readyState =
        some (st', [Call.setFrame ⟨0, 0, 1024, 746⟩]) ∧
      st' = { readyState with
              mtk_view := some { frame := ⟨0, 0, 1024, 746⟩, device := 1,
                                 colorPixelFormat := 80, delegateSet := true,
                                 attachedToContentView := true } } ∧
      ∃ v', st'.mtk_view = some v' ∧ v'.frame = ⟨0, 0, 1024, 746⟩) :=
  ⟨rfl, rfl,
    resize_exact ⟨1024, 768⟩ ⟨0, 0, 1024, 746⟩ readyState
      { frame := ⟨0, 0, 800, 578⟩, device := 1, colorPixelFormat := 80,
        delegateSet := true, attachedToContentView := true } w0 rfl rfl⟩

/-- C10: the resize handler never reads the size carried by the
`Resized` event — for any two events with different size payloads but
the same content-view frame at handling time and the same state, the
handling result (hence the surface frame afterwards) is identical. -/
theorem resize_ignores_size (s1 s2 : Size) (cv : Option Rect) (st : AppState)
    (_hne : s1 ≠ s2) :
    handleResize s1 cv st = handleResize s2 cv st := rfl

/-- C10 witness: two events with different sizes, same content frame. -/
theorem resize_ignores_size_witness :
    (⟨800, 600⟩ : Size) ≠ (⟨1024, 768⟩ : Size) ∧
    handleResize ⟨800, 600⟩ (some ⟨0, 0, 640, 480⟩) readyState =
      handleResize ⟨1024, 768⟩ (some ⟨0, 0, 640, 480⟩) readyState :=
  ⟨by decide,
    resize_ignores_size ⟨800, 600⟩ ⟨1024, 768⟩ (some ⟨0, 0, 640, 480⟩) readyState
      (by decide)⟩

/-- Inversion of a successful `init`: every creation succeeded, the
pipeline was created from the descriptor carrying the two (unchecked)
entry-point lookups and the view's pixel format, the window had a
content view, the write-once cells were empty, and the resulting state
and call log are exactly as computed. -/
theorem init_some_spec (env : BootEnv) (st : AppState) (log : List Call) (st' : AppState)
    (h : init env st = (log, some st')) :
    ∃ w device cq lib ps cv,
      st.window = some w ∧
      st.command_queue = none ∧ st.pipeline_state = none ∧ st.mtk_view = none ∧
      env.createDefaultDevice = some device ∧
      env.newCommandQueue = some cq ∧
      env.newLibraryWithSource = some lib ∧
      env.newRenderPipelineState
        { colorPixelFormat := env.colorPixelFormat,
          vertexFunction := env.functionNamed "vertex_main",
          fragmentFunction := env.functionNamed "fragment_main" } = some ps ∧
      w.contentView = some cv ∧
      st' = { command_queue := some cq, pipeline_state := some ps,
              window := some w,
              mtk_view := some { frame := cv, device := device,
                                 colorPixelFormat := env.colorPixelFormat,
                                 delegateSet := true,
                                 attachedToContentView := true } } ∧
      log = [Call.createDevice (some device), Call.newCommandQueue (some cq),
             Call.newLibraryWithSource (some lib),
             Call.functionNamed "vertex_main" (env.functionNamed "vertex_main"),
             Call.functionNamed "fragment_main" (env.functionNamed "fragment_main"),
             Call.newRenderPipelineState (some ps),
             Call.setDelegate, Call.addSubview, Call.setFrame cv,
             Call.center, Call.setTitle "Metal Example"] := by
  rcases st with ⟨scq, sps, swin, smtk⟩
  rcases env with ⟨dev, ncq, cpf, nlib, fn, nps⟩
  rcases swin with _ | w
  · simp [init] at h
  rcases dev with _ | device
  · simp [init] at h
  rcases ncq with _ | cq
  · simp [init] at h
  rcases nlib with _ | lib
  · simp [init] at h
  rcases hps : nps { colorPixelFormat := cpf,
                     vertexFunction := fn "vertex_main",
                     fragmentFunction := fn "fragment_main" } with _ | ps
  · simp [init, hps] at h
  rcases w with ⟨wf, wcv⟩
  rcases wcv with _ | cv
  · simp [init, hps] at h
  rcases scq with _ | x
  on_goal 2 => simp [init, hps] at h
  rcases sps with _ | x
  on_goal 2 => simp [init, hps] at h
  rcases smtk with _ | x
  on_goal 2 => simp [init, hps] at h
  simp [init, hps] at h
  obtain ⟨hlog, hst⟩ := h
  exact ⟨⟨wf, some cv⟩, device, cq, lib, ps, cv, rfl, rfl, rfl, rfl, rfl, rfl,
    rfl, hps, rfl, hst.symm, hlog.symm⟩

/-- Recognises a pipeline-state creation call in a trace. -/
def isPipelineCreation (c : Call) : Bool :=
  match c with
  | Call.newRenderPipelineState _ => true
  | _ => false

/-- After bootstrap, no event changes the pipeline-state cell, no event
issues a pipeline-creation call, and every pipeline bind in an event's
trace binds the instance stored in the cell. -/
theorem step_pipeline_inv (st : AppState) (e : AppEvent) (st' : AppState) (l : List Call)
    (h : step st e = some (st', l)) :
    st'.pipeline_state = st.pipeline_state ∧
    l.countP isPipelineCreation = 0 ∧
    (∀ x, Call.setRenderPipelineState x ∈ l → st.pipeline_state = some x) := by
  cases e with
  | resized size cv =>
      rcases st with ⟨scq, sps, swin, smtk⟩
      rcases smtk with _ | v
      · simp [step, handleResize] at h
      rcases swin with _ | w
      · simp [step, handleResize] at h
      rcases cv with _ | r
      · simp [step, handleResize] at h
      simp [step, handleResize] at h
      obtain ⟨hst, hl⟩ := h
      subst hst
      subst hl
      refine ⟨rfl, rfl, ?_⟩
      intro x hx
      simp at hx
  | draw env =>
      cases hd : drawInMTKView st env with
      | none => simp [step, hd] at h
      | some log =>
          simp [step, hd] at h
          obtain ⟨hst, hl⟩ := h
          subst hst
          subst hl
          obtain ⟨cq, ps, hcq, hps, hcase⟩ := drawInMTKView_some_spec st env log hd
          rcases hcase with ⟨-, rfl⟩ | ⟨-, d, -, rfl⟩
          · exact ⟨rfl, rfl, by intro x hx; simp at hx⟩
          · refine ⟨rfl, by simp [frameCalls, isPipelineCreation], ?_⟩
            intro x hx
            simp [frameCalls] at hx
            subst hx
            exact hps

/-- `step_pipeline_inv` lifted to a whole event run. -/
theorem run_pipeline_inv (events : List AppEvent) (st : AppState) (ps : Nat)
    (hps : st.pipeline_state = some ps) :
    (∀ l ∈ (run st events).1, l.countP isPipelineCreation = 0 ∧
      ∀ x, Call.setRenderPipelineState x ∈ l → x = ps) ∧
    (∀ st'', (run st events).2 = some st'' → st''.pipeline_state = some ps) := by
  induction events generalizing st with
  | nil =>
      refine ⟨by intro l hl; simp [run] at hl, ?_⟩
      intro st'' h
      simp [run] at h
      subst h
      exact hps
  | cons e es ih =>
      cases hs : step st e with
      | none =>
          refine ⟨?_, ?_⟩
          · intro l hl
            simp [run, hs] at hl
          · intro st'' h
            simp [run, hs] at h
      | some pr =>
          obtain ⟨st1, l1⟩ := pr
          obtain ⟨hpres, hcnt, hbind⟩ := step_pipeline_inv st e st1 l1 hs
          have hps1 : st1.pipeline_state = some ps := hpres.trans hps
          obtain ⟨ih1, ih2⟩ := ih st1 hps1
          refine ⟨?_, ?_⟩
          · intro l hl
            simp only [run, hs] at hl
            rcases List.mem_cons.mp hl with rfl | hl
            · refine ⟨hcnt, ?_⟩
              intro x hx
              have := hbind x hx
              rw [hps] at this
              exact (Option.some.inj this).symm
            · exact ih1 l hl
          · intro st'' h
            simp only [run, hs] at h
            exact ih2 st'' h

/-- C2: the pipeline state is created exactly once per process run —
the lone pipeline-creation call of the whole trace is during `init` —
and is never replaced: across any post-bootstrap event sequence
(resizes and draws in any order), the cell still holds the instance
`init` stored, and every frame's pipeline bind passes exactly that
instance (identity of ids modelling reference equality). -/
theorem pipeline_singleton (env : BootEnv) (st0 : AppState) (log : List Call)
    (st' : AppState) (events : List AppEvent) (framelogs : List (List Call))
    (st'' : AppState) (ps : Nat)
    (hinit : init env st0 = (log, some st'))
    (hps : st'.pipeline_state = some ps)
    (hrun : run st' events = (framelogs, some st'')) :
    (log ++ framelogs.flatten).countP isPipelineCreation = 1 ∧
    st''.pipeline_state = some ps ∧
    (∀ l ∈ framelogs, ∀ x, Call.setRenderPipelineState x ∈ l → x = ps) := by
  obtain ⟨w, device, cq, lib, ps', cv, -, -, -, -, -, -, -, -, -, -, hlog⟩ :=
    init_some_spec env st0 log st' hinit
  obtain ⟨hinv1, hinv2⟩ := run_pipeline_inv events st' ps hps
  have hfst : (run st' events).1 = framelogs := by rw [hrun]
  have hsnd : (run st' events).2 = some st'' := by rw [hrun]
  have hflat : ∀ (L : List (List Call)),
      (∀ l ∈ L, l.countP isPipelineCreation = 0) →
      L.flatten.countP isPipelineCreation = 0 := by
    intro L
    induction L with
    | nil => intro _; simp
    | cons a L ih =>
        intro hL
        simp only [List.flatten_cons, List.countP_append]
        rw [hL a (by simp), ih (fun l hl => hL l (by simp [hl]))]
  refine ⟨?_, hinv2 st'' hsnd, ?_⟩
  · rw [List.countP_append]
    have h1 : log.countP isPipelineCreation = 1 := by
      subst hlog
      rfl
    have h2 : framelogs.flatten.countP isPipelineCreation = 0 :=
      hflat framelogs (fun l hl => (hinv1 l (hfst ▸ hl)).1)
    omega
  · intro l hl x hx
    exact (hinv1 l (hfst ▸ hl)).2 x hx

/-- The event sequence used by the C2 witness: one resize, one fully
successful draw. -/
def events0 : List AppEvent :=
  [AppEvent.resized ⟨1024, 768⟩ (some ⟨0, 0, 1024, 746⟩), AppEvent.draw envAll]

/-- The call log of a successful `init` under `env0` / `w0`. -/
def initLog0 : List Call :=
  [Call.createDevice (some 1), Call.newCommandQueue (some 2),
   Call.newLibraryWithSource (some 3),
   Call.functionNamed "vertex_main" (some 4),
   Call.functionNamed "fragment_main" (some 5),
   Call.newRenderPipelineState (some 6),
   Call.setDelegate, Call.addSubview, Call.setFrame ⟨0, 0, 800, 578⟩,
   Call.center, Call.setTitle "Metal Example"]

/-- The state after bootstrapping with `env0` / `w0` and handling the
resize of `events0`. -/
def resizedState : AppState :=
  { command_queue := some 2, pipeline_state := some 6, window := some w0,
    mtk_view := some { frame := ⟨0, 0, 1024, 746⟩, device := 1,
                       colorPixelFormat := 80, delegateSet := true,
                       attachedToContentView := true } }

/-- C2 witness: bootstrap under `env0` / `w0`, then a resize and a
successful frame. -/
theorem pipeline_singleton_witness :
    init env0 (initialAppState w0) = (initLog0, some readyState) ∧
    readyState.pipeline_state = some 6 ∧
    run readyState events0 =
      ([[Call.setFrame ⟨0, 0, 1024, 746⟩], frameCalls 6 10], some resizedState) ∧
    ((initLog0 ++ [[Call.setFrame ⟨0, 0, 1024, 746⟩],
        frameCalls 6 10].flatten).countP isPipelineCreation = 1 ∧
      resizedState.pipeline_state = some 6 ∧
      (∀ l ∈ [[Call.setFrame ⟨0, 0, 1024, 746⟩], frameCalls 6 10],
        ∀ x, Call.setRenderPipelineState x ∈ l → x = 6)) :=
  ⟨rfl, rfl, rfl,
    pipeline_singleton env0 (initialAppState w0) initLog0 readyState events0
      [[Call.setFrame ⟨0, 0, 1024, 746⟩], frameCalls 6 10] resizedState 6
      rfl rfl rfl⟩

/-- C6 counterexample: under a backend whose pipeline-state creation
accepts a descriptor without a fragment function, a shader library
lacking `fragment_main` does **not** make bootstrap fail — `init` has
no presence check on the entry-point lookups — and the very first frame
issues a Commit. -/
theorem missing_entry_point_not_fatal :
    envBadFrag.functionNamed "fragment_main" = none ∧
    (processRun envBadFrag w0 [AppEvent.draw envAll]).2 = false ∧
    Call.commit ∈ (processRun envBadFrag w0 [AppEvent.draw envAll]).1 := by
  refine ⟨rfl, rfl, ?_⟩
  simp [processRun, init, run, step, drawInMTKView, envBadFrag, w0, envAll,
    initialAppState]

/-- C6 amended: the source assigns the (possibly nil) entry-point
lookups to the descriptor without any presence check, so a missing
`fragment_main` / `vertex_main` is fatal only through the backend:
whenever pipeline-state creation fails for the descriptor built from
the unchecked lookups — as Metal's does when an entry point is absent
with a color attachment configured — bootstrap panics with a
descriptive error (`Failed to create a pipeline state.`) before any
frame is drawn, and zero Commit calls ever occur in the process run. -/
theorem pipeline_creation_failure_fatal (env : BootEnv) (w : NSWindowModel)
    (events : List AppEvent)
    (h : env.newRenderPipelineState
      { colorPixelFormat := env.colorPixelFormat,
        vertexFunction := env.functionNamed "vertex_main",
        fragmentFunction := env.functionNamed "fragment_main" } = none) :
    (processRun env w events).2 = true ∧
    Call.commit ∉ (processRun env w events).1 := by
  rcases env with ⟨dev, ncq, cpf, nlib, fn, nps⟩
  simp only at h
  rcases dev with _ | device
  · simp [processRun, init, initialAppState]
  rcases ncq with _ | cq
  · simp [processRun, init, initialAppState]
  rcases nlib with _ | lib
  · simp [processRun, init, initialAppState]
  simp [processRun, init, initialAppState, h]

/-- C6-amended witness: a backend lacking `fragment_main` whose pipeline
creation demands both shader stages (Metal-like); bootstrap aborts and
no commit ever happens, even with a fully available frame queued. -/
theorem pipeline_creation_failure_fatal_witness :
    envNoFrag.newRenderPipelineState
      { colorPixelFormat := envNoFrag.colorPixelFormat,
        vertexFunction := envNoFrag.functionNamed "vertex_main",
        fragmentFunction := envNoFrag.functionNamed "fragment_main" } = none ∧
    ((processRun envNoFrag w0 [AppEvent.draw envAll]).2 = true ∧
      Call.commit ∉ (processRun envNoFrag w0 [AppEvent.draw envAll]).1) :=
  ⟨rfl, pipeline_creation_failure_fatal envNoFrag w0 [AppEvent.draw envAll] rfl⟩

/-- C7: bootstrap runs exactly once, before any draw: after a
successful `init`, any second invocation panics — when the second run's
backend calls all succeed it is the write-once cells that reject the
second `set` — and a draw delivered before bootstrap (on the state
`new` builds, whose resource cells are empty) panics on the first cell
read. -/
theorem bootstrap_exactly_once (env : BootEnv) (st : AppState) (log : List Call)
    (st' : AppState) (hinit : init env st = (log, some st')) :
    (∀ env2, (init env2 st').2 = none) ∧
    (∀ (w : NSWindowModel) (envf : FrameEnv),
      drawInMTKView (initialAppState w) envf = none) := by
  obtain ⟨w, device, cq, lib, ps, cv, -, -, -, -, -, -, -, -, hcv, hst', -⟩ :=
    init_some_spec env st log st' hinit
  subst hst'
  refine ⟨?_, fun w envf => rfl⟩
  intro env2
  rcases env2 with ⟨dev2, ncq2, cpf2, nlib2, fn2, nps2⟩
  rcases dev2 with _ | d2
  · simp [init]
  rcases ncq2 with _ | q2
  · simp [init]
  rcases nlib2 with _ | lib2
  · simp [init]
  rcases hps2 : nps2 { colorPixelFormat := cpf2,
                       vertexFunction := fn2 "vertex_main",
                       fragmentFunction := fn2 "fragment_main" } with _ | ps2
  · simp [init, hps2]
  · simp [init, hps2, hcv]

/-- C7 witness: bootstrap under `env0` / `w0`; re-running `init` (under
the same fully functional backend) panics, and a pre-bootstrap draw
panics. -/
theorem bootstrap_exactly_once_witness :
    init env0 (initialAppState w0) = (initLog0, some readyState) ∧
    ((∀ env2, (init env2 readyState).2 = none) ∧
      (∀ (w : NSWindowModel) (envf : FrameEnv),
        drawInMTKView (initialAppState w) envf = none)) :=
  ⟨rfl, bootstrap_exactly_once env0 (initialAppState w0) initLog0 readyState rfl⟩

/-- C8: at the end of a successful bootstrap, the rendering surface is
attached as a subview of the host window's content view and its frame
equals the content view's frame — in particular not the window's own
frame whenever the two rectangles differ (the view is *created* with
the window frame but reframed to the content frame before `init`
returns). -/
theorem bootstrap_view_attached (env : BootEnv) (st : AppState) (log : List Call)
    (st' : AppState) (w : NSWindowModel) (cv : Rect)
    (hw : st.window = some w) (hcv : w.contentView = some cv)
    (hinit : init env st = (log, some st')) :
    ∃ v, st'.mtk_view = some v ∧ v.attachedToContentView = true ∧ v.frame = cv ∧
      (w.frame ≠ cv → v.frame ≠ w.frame) := by
  obtain ⟨w', device, cq, lib, ps, cv', hw', -, -, -, -, -, -, -, hcv', hst', -⟩ :=
    init_some_spec env st log st' hinit
  rw [hw] at hw'
  have hww : w = w' := Option.some.inj hw'
  subst hww
  rw [hcv] at hcv'
  have hcvv : cv = cv' := Option.some.inj hcv'
  subst hcvv
  subst hst'
  refine ⟨_, rfl, rfl, rfl, ?_⟩
  intro hne heq
  exact hne heq.symm

/-- C8 witness: bootstrap under `env0` / `w0`, whose content frame
(800×578) differs from the window frame (800×600). -/
theorem bootstrap_view_attached_witness :
    (initialAppState w0).window = some w0 ∧
    w0.contentView = some ⟨0, 0, 800, 578⟩ ∧
    init env0 (initialAppState w0) = (initLog0, some readyState) ∧
    (∃ v, readyState.mtk_view = some v ∧ v.attachedToContentView = true ∧
      v.frame = ⟨0, 0, 800, 578⟩ ∧
      (w0.frame ≠ ⟨0, 0, 800, 578⟩ → v.frame ≠ w0.frame)) :=
  ⟨rfl, rfl, rfl,
    bootstrap_view_attached env0 (initialAppState w0) initLog0 readyState w0
      ⟨0, 0, 800, 578⟩ rfl rfl rfl⟩
